import Mathlib

/-!
Shallow embedding of the event distribution and effect-serialization
subsystem of the mxeaez-shop repository:

* the consumer-side bridge (`src/mxeaez-bridge/bridge.js`): execution
  queue (promise chain), delivery deduplicator, message router and
  reconnecting subscriber client;
* the server-side channel fan-out hub and the redeem route
  (`src/unnamed/part_003`).

Machine integers are modelled as `Nat` (timestamps, durations);
JavaScript truthiness of optional strings / numbers is modelled
explicitly (`jsOrS`, `jsOrNat`).
-/

namespace Bridge

/-! ## Execution queue (bridge.js lines 46-53, 950-960)

The bridge keeps a global promise `chain`; for each accepted redeem it
appends one unit: await the predecessor, run the handler, and in a
`finally` block sleep the item's hold duration before resolving, with a
trailing `catch` that logs a failing handler and leaves the chain
resolved.  We embed the timing semantics of this chain: a task is a
handler with a settle duration (how long its own asynchronous work takes
to settle), a failure flag (resolve vs reject) and its hold; running the
chain from a start instant assigns each task its invocation and settle
instants, the next task starting at `settle + hold` of its predecessor. -/

structure Task where
  itemId : String
  /-- time for the handler's own work to settle (resolve or reject) -/
  dur : Nat
  /-- whether the handler rejects/throws -/
  fails : Bool
  /-- hold duration (EFFECT_DURATIONS_MS value, default 0) -/
  hold : Nat
deriving Repr, DecidableEq

/-- The scheduled execution record of one task on the chain. -/
structure Slot where
  itemId : String
  /-- instant the handler is invoked -/
  start : Nat
  /-- instant the handler settles -/
  settle : Nat
  hold : Nat
  failed : Bool
deriving Repr, DecidableEq

/-- Timing semantics of `chain = chain.then(run).catch(log)`: each unit
starts when its predecessor's unit has resolved, i.e. after the
predecessor's handler settled and its hold elapsed (the `finally` sleeps
the hold whether the handler resolved or rejected). -/
def chainRun : Nat → List Task → List Slot
  | _, [] => []
  | t, task :: rest =>
    { itemId := task.itemId, start := t, settle := t + task.dur,
      hold := task.hold, failed := task.fails }
      :: chainRun (t + task.dur + task.hold) rest

/-- The `.catch((e) => log("handler error", ...))` log: one entry per
rejected handler, in chain order. -/
def chainErrorLog (slots : List Slot) : List String :=
  (slots.filter (fun s => s.failed)).map (fun s => "handler error " ++ s.itemId)

/-! ## Events, deduplicator and message router (bridge.js lines 860-966)

`Msg` embeds a parsed JSON message as the router sees it; absent JSON
fields are `none`.  JavaScript `a || b` on strings treats both absent and
empty strings as falsy (`jsOrS`); on numbers it treats absent and `0` as
falsy (`jsOrNat`). -/

structure Viewer where
  opaqueUserId : Option String := none
  userId : Option String := none
  login : Option String := none
  displayName : Option String := none
deriving Repr, DecidableEq

structure Msg where
  type : String
  channelId : Option String := none
  itemId : Option String := none
  viewer : Option Viewer := none
  /-- the JSON field `at` (`at` is a Lean keyword) -/
  atTime : Option Nat := none
  prizeId : Option String := none
  prizeName : Option String := none
deriving Repr, DecidableEq

/-- JavaScript `a || b` for an optional string `a`: absent and `""` are
falsy. -/
def jsOrS : Option String → String → String
  | some s, d => if s == "" then d else s
  | none, d => d

/-- JavaScript `a || b` for an optional number `a`: absent and `0` are
falsy. -/
def jsOrNat : Option Nat → Nat → Nat
  | some n, d => if n == 0 then d else n
  | none, d => d

/-- JavaScript truthiness of an optional string. -/
def jsTruthyS : Option String → Bool
  | some s => s != ""
  | none => false

/-- Embeds `msg?.viewer?.opaqueUserId || msg?.viewer?.userId || ""` (bridge.js
line 864). -/
def viewerIdOf (m : Msg) : String :=
  match m.viewer with
  | none => ""
  | some v => jsOrS v.opaqueUserId (jsOrS v.userId "")

/-- Embeds `msg.at || Date.now()` (bridge.js line 865): the event timestamp, or
the receipt clock when absent or zero. -/
def atMs (now : Nat) (m : Msg) : Nat := jsOrNat m.atTime now

/-- Template-literal rendering of `msg.itemId` inside the key: an absent
field prints as `undefined`. -/
def itemIdStr (m : Msg) : String := m.itemId.getD "undefined"

/-- Embeds `Math.round(a / 2000)` for a nonnegative integer `a`: JavaScript
rounds half toward positive infinity, which on naturals is
`(a + 1000) / 2000` with floor division. -/
def round2000 (a : Nat) : Nat := (a + 1000) / 2000

/-- bridge.js lines 863-867. -/
def dedupeKey (now : Nat) (m : Msg) : String :=
  m.type ++ "|" ++ itemIdStr m ++ "|" ++ viewerIdOf m ++ "|"
    ++ toString (round2000 (atMs now m))

/-- Key as the specification words it: the composite
`(type, itemId, viewerId, floor(timestamp / 2000))`, the time component
being the timestamp integer-divided (floored) by `BUCKET_WIDTH = 2000`. -/
def dedupeKeyFloorSpec (now : Nat) (m : Msg) : String :=
  m.type ++ "|" ++ itemIdStr m ++ "|" ++ viewerIdOf m ++ "|"
    ++ toString (atMs now m / 2000)

/-- The keys of the `HANDLERS` object (bridge.js lines 709-858).  The
handler bodies are OBS / audio / chat side effects, out of scope; the
router only tests key membership (`HANDLERS[msg.itemId]`, line 944), and
every value of the object is a function (hence truthy). -/
def HANDLERS : List String :=
  ["dramatic_zoom", "spongebob_stfu", "titanic_flute", "fake_dc",
   "rave_party", "tts_message", "voice_changer", "camera_flip",
   "tiny_cam", "streamer_asmr", "timeout_anyone", "notice_me_senpai",
   "mute_streamer", "fullscreen_cam", "mystery_box", "vip_badge",
   "carry_now", "game_master", "equipment_master", "kc_1000", "kc_5000",
   "kc_25000", "kc_50000"]

/-- bridge.js lines 56-71. -/
def EFFECT_DURATIONS_MS : List (String × Nat) :=
  [("dramatic_zoom", 5000), ("camera_flip", 5000), ("tiny_cam", 5000),
   ("fullscreen_cam", 5000), ("mute_streamer", 10000),
   ("voice_changer", 10000), ("rave_party", 10000),
   ("spongebob_stfu", 3000), ("titanic_flute", 30000), ("tts_message", 0),
   ("timeout_anyone", 0), ("fake_dc", 5000)]

/-- Embeds `EFFECT_DURATIONS_MS[msg.itemId] ?? 0` (bridge.js line 948), in the
redeem branch. -/
def holdFor (m : Msg) : Nat :=
  (EFFECT_DURATIONS_MS.lookup (itemIdStr m)).getD 0

/-- A unit appended to the chain by the router (itemId plus resolved
hold); its runtime behaviour is a `Task` once the handler runs. -/
structure QueuedTask where
  itemId : String
  hold : Nat
deriving Repr, DecidableEq

/-- Consumer-side mutable state touched by the message handler: the
`recent` dedup set and the chain of enqueued units (FIFO order). -/
structure BridgeState where
  recent : List String
  tasks : List QueuedTask
deriving Repr, DecidableEq

inductive LogEntry where
  /-- the `console.log("[bridge] msg", ...)` line (943) -/
  | msgReceived (itemId : String)
  /-- the `log("[bridge] no handler for", msg.itemId)` warning (line 945) -/
  | noHandler (itemId : String)
  /-- the `log("Mystery prize: ...")` line (964) -/
  | mysteryPrize (label : String)
deriving Repr, DecidableEq

structure HandleResult where
  state : BridgeState
  logs : List LogEntry
  /-- whether the `HANDLERS[msg.itemId]` lookup (line 944) was reached -/
  registryConsulted : Bool
deriving Repr, DecidableEq

/-- The `ws.on("message", ...)` body (bridge.js lines 929-966) after a
successful JSON parse: the redeem branch (dedup, registry lookup, chain
append) followed by the independent mystery branch (log only). -/
def handleMessage (cfgChannelId : String) (now : Nat) (s : BridgeState)
    (m : Msg) : HandleResult :=
  let r1 : HandleResult :=
    if m.type == "redeem" && m.channelId == some cfgChannelId then
      let key := dedupeKey now m
      if s.recent.contains key then
        { state := s, logs := [], registryConsulted := false }
      else
        let s1 : BridgeState := { s with recent := key :: s.recent }
        if HANDLERS.contains (itemIdStr m) then
          { state := { s1 with
              tasks := s1.tasks ++ [{ itemId := itemIdStr m, hold := holdFor m }] },
            logs := [.msgReceived (itemIdStr m)],
            registryConsulted := true }
        else
          { state := s1,
            logs := [.msgReceived (itemIdStr m), .noHandler (itemIdStr m)],
            registryConsulted := true }
    else { state := s, logs := [], registryConsulted := false }
  if m.type == "mystery" && jsTruthyS m.prizeId then
    { r1 with
      logs := r1.logs ++ [.mysteryPrize (jsOrS m.prizeName (m.prizeId.getD ""))] }
  else r1

/-! ## Reconnecting subscriber client (bridge.js lines 870-927)

State touched by `connect()`, the `close` handler and `updateWantWs()`:
the gating flag `wantWs`, the connection reference `ws` (here: whether it
is non-null) and whether a `setTimeout(connect, 1500)` retry is
outstanding.  `hasEbs` models the `EBS_WS` environment variable being
set. -/

structure ClientState where
  /-- the gating flag `wantWs` -/
  wantWs : Bool
  /-- whether `ws !== null` -/
  wsConn : Bool
  /-- a `setTimeout(connect, 1500)` is outstanding -/
  timerPending : Bool
deriving Repr, DecidableEq

inductive ClientEvent where
  /-- the socket's `close` event fires -/
  | wsClose
  /-- the 1500 ms backoff timer fires -/
  | retryTimer
  /-- the gating recomputation `updateWantWs()` found `shouldConnect = b` -/
  | setWant (b : Bool)
deriving Repr, DecidableEq

structure StepResult where
  state : ClientState
  /-- whether `new WebSocket(EBS_WS)` was executed during this step -/
  connectAttempt : Bool
  /-- delay of a retry timer scheduled during this step, if any -/
  scheduledRetryMs : Option Nat
deriving Repr, DecidableEq

/-- the fixed backoff of `setTimeout(connect, 1500)` (line 925) -/
def RETRY_MS : Nat := 1500

/-- Embeds `connect()` (lines 916-919): `if (!EBS_WS || !wantWs || ws) return;`
then `ws = new WebSocket(EBS_WS)`.  Returns the new state and whether a
connection attempt was made. -/
def connectFn (hasEbs : Bool) (s : ClientState) : ClientState × Bool :=
  if !hasEbs || !s.wantWs || s.wsConn then (s, false)
  else ({ s with wsConn := true }, true)

/-- One event-loop step of the client (close handler lines 922-926,
retry timer firing `connect`, and the `updateWantWs` reaction of
`armObsGating`, lines 879-900). -/
def clientStep (hasEbs : Bool) (s : ClientState) : ClientEvent → StepResult
  | .wsClose =>
    -- ws.on("close"): ws = null; if (wantWs) setTimeout(connect, 1500)
    { state := { s with wsConn := false, timerPending := s.wantWs },
      connectAttempt := false,
      scheduledRetryMs := if s.wantWs then some RETRY_MS else none }
  | .retryTimer =>
    if s.timerPending then
      let p := connectFn hasEbs { s with timerPending := false }
      { state := p.1, connectAttempt := p.2, scheduledRetryMs := none }
    else { state := s, connectAttempt := false, scheduledRetryMs := none }
  | .setWant b =>
    if b && !s.wantWs then
      -- wantWs = true; connect()
      let p := connectFn hasEbs { s with wantWs := true }
      { state := p.1, connectAttempt := p.2, scheduledRetryMs := none }
    else if !b && s.wantWs then
      -- wantWs = false; ws.close()  (its close event arrives as a later step)
      { state := { s with wantWs := false }, connectAttempt := false,
        scheduledRetryMs := none }
    else { state := s, connectAttempt := false, scheduledRetryMs := none }

end Bridge

namespace Ebs

/-! ## Channel fan-out hub (src/unnamed/part_003 lines 820-851, 907-922)

`channelSockets : Map<string, Set<WebSocket>>` becomes an association
list from channel id to connection list; a connection carries its
identity, whether `readyState === OPEN`, and whether its `send` would
throw. -/

structure Conn where
  id : Nat
  /-- whether `ws.readyState === WebSocket.OPEN` -/
  readyStateOpen : Bool
  /-- whether `ws.send(data)` succeeds (a dead transport throws) -/
  sendOk : Bool
deriving Repr, DecidableEq

abbrev Hub := List (String × List Conn)

/-- Embeds `ws.send(data)`: delivers `(id, data)` or throws. -/
def wsSend (data : String) (c : Conn) : Except String (Nat × String) :=
  if c.sendOk then .ok (c.id, data) else .error "send failed"

/-- The `for (const ws of set)` loop of `broadcastToChannel`: skip
non-open connections; `try { ws.send(data) } catch {}` swallows a
per-connection failure and continues. -/
def sendLoop (data : String) : List Conn → List (Nat × String)
  | [] => []
  | c :: rest =>
    if c.readyStateOpen then
      match wsSend data c with
      | .ok d => d :: sendLoop data rest
      | .error _ => sendLoop data rest
    else sendLoop data rest

/-- Embeds `broadcastToChannel(channelId, payload)` (lines 840-851):
`JSON.stringify(payload)` once (the external serializer is a parameter),
then the guarded send loop.  The result lists the deliveries
`(connection id, serialized data)`; the `Except` layer records that the
call could only raise via an uncaught exception, and there is none. -/
def broadcastToChannel {α : Type} (serialize : α → String) (hub : Hub)
    (cid : String) (payload : α) : Except String (List (Nat × String)) :=
  match hub.lookup cid with
  | none => .ok []
  | some conns =>
    let data := serialize payload
    .ok (sendLoop data conns)

/-- Embeds `registerChannelSocket(channelId, ws)` (lines 823-829, the `set.add`
part; close-handler cleanup is separate). -/
def registerChannelSocket : Hub → String → Conn → Hub
  | [], cid, c => [(cid, [c])]
  | (k, conns) :: rest, cid, c =>
    if k == cid then (k, conns ++ [c]) :: rest
    else (k, conns) :: registerChannelSocket rest cid c

inductive UpgradeOutcome where
  /-- the socket was destroyed via `socket.destroy()` -/
  | destroyed
  /-- the call `registerChannelSocket(channelId, ws)` ran -/
  | registered (channelId : String)
deriving Repr, DecidableEq

structure UpgradeReq where
  pathname : String
  /-- the value of `url.searchParams.get("channel_id")`: `none` when absent -/
  channelParam : Option String
deriving Repr, DecidableEq

/-- Embeds `server.on("upgrade", ...)` (lines 907-922): wrong path or a missing
or empty `channel_id` query parameter destroys the socket before any
registration; otherwise the socket is registered under that channel. -/
def handleUpgrade (hub : Hub) (req : UpgradeReq) (c : Conn) :
    Hub × UpgradeOutcome :=
  if req.pathname != "/bridge" then (hub, .destroyed)
  else
    match req.channelParam with
    | none => (hub, .destroyed)
    | some cid =>
      if cid == "" then (hub, .destroyed)
      else (registerChannelSocket hub cid c, .registered cid)

/-! ## Redeem route: inventory deletion + redemption insertion
(src/unnamed/part_003 lines 641-684)

One `(channel, viewer)` inventory subcollection and the channel's
redemptions collection.  `db.runTransaction` applies the delete and the
insert as one atomic store update: in the embedding, a single pure
function from store to store. -/

structure InvEntry where
  /-- Firestore document identity -/
  docId : Nat
  itemId : String
  acquiredAt : Nat
deriving Repr, DecidableEq

structure Redemption where
  itemId : String
  itemName : String
  target : Option String
  text : Option String
deriving Repr, DecidableEq

structure ChannelStore where
  inventory : List InvEntry
  redemptions : List Redemption
deriving Repr, DecidableEq

/-- The query `where("itemId", "==", itemId).orderBy("acquiredAt",
"desc").limit(1)`: the matching entry with maximal `acquiredAt` (first
such on ties). -/
def findLatestEntry (inv : List InvEntry) (itemId : String) :
    Option InvEntry :=
  (inv.filter (fun e => e.itemId == itemId)).foldl
    (fun acc e =>
      match acc with
      | none => some e
      | some a => if e.acquiredAt > a.acquiredAt then some e else acc)
    none

/-- The inventory/redemption part of `app.post("/redeem")`: empty query
result returns the 400 error `No such item in inventory` with the store
untouched; otherwise `db.runTransaction` deletes the found document and
inserts the redemption row in one atomic update.  Returns the new store
and the error, if any. -/
def redeemRoute (st : ChannelStore) (itemId itemName : String)
    (target text : Option String) : ChannelStore × Option String :=
  match findLatestEntry st.inventory itemId with
  | none => (st, some "No such item in inventory")
  | some entry =>
    ({ inventory := st.inventory.filter (fun e => e.docId != entry.docId),
       redemptions := st.redemptions ++
         [{ itemId := itemId, itemName := itemName,
            target := target, text := text }] },
     none)

end Ebs

namespace Bridge

/-! ## Helper lemmas about the chain schedule -/

theorem chainRun_length (t : Nat) (ts : List Task) :
    (chainRun t ts).length = ts.length := by
  induction ts generalizing t with
  | nil => rfl
  | cons a rest ih => simp [chainRun, ih]

theorem chainRun_start_ge (t : Nat) (ts : List Task) (i : Nat)
    (h : i < (chainRun t ts).length) :
    t ≤ (chainRun t ts)[i].start := by
  induction ts generalizing t i with
  | nil => simp [chainRun] at h
  | cons a rest ih =>
    cases i with
    | zero => simp [chainRun]
    | succ n =>
      have h' : n < (chainRun (t + a.dur + a.hold) rest).length := by
        simpa [chainRun] using h
      have ihn := ih (t + a.dur + a.hold) n h'
      simp only [chainRun, List.getElem_cons_succ]
      exact le_trans (by omega) ihn

/-- The chain reference holds, after each unit, the instant the next unit
may start: predecessor settle plus predecessor hold. -/
theorem chainRun_serial (t : Nat) (ts : List Task) (i j : Nat)
    (hi : i < (chainRun t ts).length) (hj : j < (chainRun t ts).length)
    (hij : i < j) :
    (chainRun t ts)[i].settle + (chainRun t ts)[i].hold
      ≤ (chainRun t ts)[j].start := by
  induction ts generalizing t i j with
  | nil => simp [chainRun] at hi
  | cons a rest ih =>
    cases i with
    | zero =>
      cases j with
      | zero => omega
      | succ m =>
        have hm : m < (chainRun (t + a.dur + a.hold) rest).length := by
          simpa [chainRun] using hj
        have hge := chainRun_start_ge (t + a.dur + a.hold) rest m hm
        simp only [chainRun, List.getElem_cons_succ, List.getElem_cons_zero]
        exact le_trans (by omega) hge
    | succ n =>
      cases j with
      | zero => omega
      | succ m =>
        have hn : n < (chainRun (t + a.dur + a.hold) rest).length := by
          simpa [chainRun] using hi
        have hm : m < (chainRun (t + a.dur + a.hold) rest).length := by
          simpa [chainRun] using hj
        have := ih (t + a.dur + a.hold) n m hn hm (by omega)
        simpa [chainRun, List.getElem_cons_succ] using this

theorem chainRun_get_fields (t : Nat) (ts : List Task) (i : Nat)
    (h : i < ts.length) (h' : i < (chainRun t ts).length) :
    (chainRun t ts)[i].itemId = ts[i].itemId
    ∧ (chainRun t ts)[i].failed = ts[i].fails
    ∧ (chainRun t ts)[i].hold = ts[i].hold
    ∧ (chainRun t ts)[i].settle = (chainRun t ts)[i].start + ts[i].dur := by
  induction ts generalizing t i with
  | nil => simp at h
  | cons a rest ih =>
    cases i with
    | zero => simp [chainRun]
    | succ n =>
      have hn : n < rest.length := by simpa using h
      have hn' : n < (chainRun (t + a.dur + a.hold) rest).length := by
        simpa [chainRun] using h'
      have := ih (t + a.dur + a.hold) n hn hn'
      simpa [chainRun, List.getElem_cons_succ] using this

end Bridge

namespace Bridge

/-! ## Step lemmas for the message router -/

/-- An accepted, actionable redeem: key recorded, task appended. -/
theorem handleMessage_accept (cfg : String) (n : Nat) (s : BridgeState)
    (m : Msg) (hty : m.type = "redeem") (hch : m.channelId = some cfg)
    (hfresh : s.recent.contains (dedupeKey n m) = false)
    (hhand : HANDLERS.contains (itemIdStr m) = true) :
    handleMessage cfg n s m =
      { state := { recent := dedupeKey n m :: s.recent,
                   tasks := s.tasks ++ [{ itemId := itemIdStr m,
                                          hold := holdFor m }] },
        logs := [.msgReceived (itemIdStr m)],
        registryConsulted := true } := by
  have hf : dedupeKey n m ∉ s.recent := by simpa using hfresh
  have hh : itemIdStr m ∈ HANDLERS := by simpa using hhand
  simp [handleMessage, hty, hch, hf, hh]

/-- A duplicate delivery (key already recorded): dropped before the log
line and before the registry lookup. -/
theorem handleMessage_dup (cfg : String) (n : Nat) (s : BridgeState)
    (m : Msg) (hty : m.type = "redeem") (hch : m.channelId = some cfg)
    (hdup : s.recent.contains (dedupeKey n m) = true) :
    handleMessage cfg n s m =
      { state := s, logs := [], registryConsulted := false } := by
  have hd : dedupeKey n m ∈ s.recent := by simpa using hdup
  simp [handleMessage, hty, hch, hd]

/-- An accepted redeem with no registered handler: key recorded, warning
logged, nothing enqueued. -/
theorem handleMessage_noHandler (cfg : String) (n : Nat) (s : BridgeState)
    (m : Msg) (hty : m.type = "redeem") (hch : m.channelId = some cfg)
    (hfresh : s.recent.contains (dedupeKey n m) = false)
    (hun : HANDLERS.contains (itemIdStr m) = false) :
    handleMessage cfg n s m =
      { state := { recent := dedupeKey n m :: s.recent, tasks := s.tasks },
        logs := [.msgReceived (itemIdStr m), .noHandler (itemIdStr m)],
        registryConsulted := true } := by
  have hf : dedupeKey n m ∉ s.recent := by simpa using hfresh
  have hu : itemIdStr m ∉ HANDLERS := by simpa using hun
  simp [handleMessage, hty, hch, hf, hu]

/-- Two keys built from the same type, itemId and bucket agree only if
their viewer components agree. -/
theorem dedupeKey_viewer_inj (n1 n2 : Nat) (m m2 : Msg)
    (ht : m2.type = m.type) (hitem : itemIdStr m2 = itemIdStr m)
    (hat : atMs n2 m2 = atMs n1 m)
    (hkey : dedupeKey n2 m2 = dedupeKey n1 m) :
    viewerIdOf m2 = viewerIdOf m := by
  unfold dedupeKey at hkey
  rw [ht, hitem, hat] at hkey
  have hd := congrArg String.data hkey
  simp only [String.data_append, List.append_assoc] at hd
  have h1 := List.append_cancel_left hd
  have h2 := List.append_cancel_left h1
  have h3 := List.append_cancel_left h2
  have h4 := List.append_cancel_left h3
  have h5 := List.append_cancel_right h4
  cases hv2 : viewerIdOf m2
  cases hv : viewerIdOf m
  rw [hv2, hv] at h5
  exact congrArg String.mk h5

end Bridge

namespace Bridge

/-! ## Claim theorems: execution queue -/

/-- Claim C1: for any two tasks enqueued into the consumer's execution
queue, if task A was enqueued before task B (position `i` before `j` on
the chain), B's handler is invoked only after A's handler has settled and
A's hold has fully elapsed; hence at most one handler invocation is in
flight at any time and handlers run in enqueue (FIFO) order. -/
theorem claim_C1_queue_serialization (t0 : Nat) (ts : List Task) (i j : Nat)
    (hi : i < (chainRun t0 ts).length) (hj : j < (chainRun t0 ts).length)
    (hij : i < j) :
    (chainRun t0 ts)[i].settle + (chainRun t0 ts)[i].hold
        ≤ (chainRun t0 ts)[j].start
    ∧ (chainRun t0 ts)[i].settle ≤ (chainRun t0 ts)[j].start
    ∧ (chainRun t0 ts)[i].start ≤ (chainRun t0 ts)[j].start := by
  have h := chainRun_serial t0 ts i j hi hj hij
  have hlen := chainRun_length t0 ts
  have hi2 : i < ts.length := by omega
  obtain ⟨-, -, -, hset⟩ := chainRun_get_fields t0 ts i hi2 hi
  exact ⟨h, by omega, by omega⟩

theorem claim_C1_witness :
    ((chainRun 0 [⟨"dramatic_zoom", 100, true, 5000⟩,
          ⟨"tts_message", 50, false, 0⟩]).get ⟨0, by decide⟩).settle
      + ((chainRun 0 [⟨"dramatic_zoom", 100, true, 5000⟩,
          ⟨"tts_message", 50, false, 0⟩]).get ⟨0, by decide⟩).hold
      ≤ ((chainRun 0 [⟨"dramatic_zoom", 100, true, 5000⟩,
          ⟨"tts_message", 50, false, 0⟩]).get ⟨1, by decide⟩).start := by
  have h := claim_C1_queue_serialization 0
    [⟨"dramatic_zoom", 100, true, 5000⟩, ⟨"tts_message", 50, false, 0⟩]
    0 1 (by decide) (by decide) (by decide)
  exact h.1

/-- Claim C4: a handler that throws or rejects is caught and logged, its
hold still elapses before the next task starts, and every subsequently
enqueued task still executes (the schedule has an entry for every task
and every later task still starts after this task's settle plus hold). -/
theorem claim_C4_failure_resilience (t0 : Nat) (ts : List Task) (i : Nat)
    (hi : i < ts.length) (hi2 : i < (chainRun t0 ts).length)
    (hfail : ts[i].fails = true) :
    (chainRun t0 ts).length = ts.length
    ∧ ("handler error " ++ ts[i].itemId) ∈ chainErrorLog (chainRun t0 ts)
    ∧ (∀ j, (hj : j < (chainRun t0 ts).length) → i < j →
        (chainRun t0 ts)[i].settle + (chainRun t0 ts)[i].hold
          ≤ (chainRun t0 ts)[j].start) := by
  obtain ⟨hid, hfl, -, -⟩ := chainRun_get_fields t0 ts i hi hi2
  refine ⟨chainRun_length t0 ts, ?_,
    fun j hj hij => chainRun_serial t0 ts i j hi2 hj hij⟩
  unfold chainErrorLog
  apply List.mem_map.mpr
  refine ⟨(chainRun t0 ts)[i], ?_, by rw [hid]⟩
  apply List.mem_filter.mpr
  exact ⟨List.getElem_mem hi2, by simp [hfl, hfail]⟩

theorem claim_C4_witness :
    ("handler error " ++ "dramatic_zoom")
      ∈ chainErrorLog (chainRun 0 [⟨"dramatic_zoom", 100, true, 5000⟩,
          ⟨"tts_message", 50, false, 0⟩]) := by
  have h := claim_C4_failure_resilience 0
    [⟨"dramatic_zoom", 100, true, 5000⟩, ⟨"tts_message", 50, false, 0⟩]
    0 (by decide) (by decide) (by decide)
  simpa using h.2.1

/-! ## Claim theorems: deduplicator -/

/-- Claim C3 counterexample: at timestamp 1000 ms the code's key uses
`Math.round(1000 / 2000) = 1` while the claimed
`floor(1000 / 2000) = 0`, so the key is not the floored composite. -/
theorem claim_C3_counterexample :
    dedupeKey 0 { type := "redeem", channelId := some "45264995",
                  itemId := some "dramatic_zoom",
                  viewer := some { opaqueUserId := some "U1" },
                  atTime := some 1000 }
      ≠ dedupeKeyFloorSpec 0 { type := "redeem",
                               channelId := some "45264995",
                               itemId := some "dramatic_zoom",
                               viewer := some { opaqueUserId := some "U1" },
                               atTime := some 1000 } := by decide

/-- Claim C3 (amended): the deduplication key is the composite
`(type, itemId, viewerId, round(timestamp / 2000))` with
`BUCKET_WIDTH = 2000` ms, the time component being the timestamp divided
by 2000 rounded to the nearest integer, halves up
(`Math.round`, i.e. `floor((timestamp + 1000) / 2000)`), not floored. -/
theorem claim_C3_key_algorithm (now : Nat) (m : Msg) :
    dedupeKey now m
      = m.type ++ "|" ++ itemIdStr m ++ "|" ++ viewerIdOf m ++ "|"
          ++ toString ((atMs now m + 1000) / 2000) := rfl

end Bridge

namespace Bridge

/-- Claim C2: for a redeem event addressed to the client's channel whose
item has a registered handler, delivering the identical event a second
time within the same bucket window (same key) enqueues no second task —
exactly one task total — while delivering a second event that differs
only in viewer identifier (same type, itemId and timestamp) enqueues two
tasks. -/
theorem claim_C2_dedup_idempotence (cfg : String) (s0 : BridgeState)
    (m m2 : Msg) (n1 n2 n3 : Nat)
    (hty : m.type = "redeem") (hch : m.channelId = some cfg)
    (hhand : HANDLERS.contains (itemIdStr m) = true)
    (hfresh : s0.recent.contains (dedupeKey n1 m) = false)
    (hsame : dedupeKey n2 m = dedupeKey n1 m)
    (hty2 : m2.type = m.type) (hch2 : m2.channelId = some cfg)
    (hitem2 : itemIdStr m2 = itemIdStr m)
    (hat2 : atMs n3 m2 = atMs n1 m)
    (hv2 : viewerIdOf m2 ≠ viewerIdOf m)
    (hfresh2 : s0.recent.contains (dedupeKey n3 m2) = false) :
    ((handleMessage cfg n2 (handleMessage cfg n1 s0 m).state m).state.tasks
        = s0.tasks ++ [{ itemId := itemIdStr m, hold := holdFor m }])
    ∧ ((handleMessage cfg n3 (handleMessage cfg n1 s0 m).state m2).state.tasks
        = s0.tasks ++ [{ itemId := itemIdStr m, hold := holdFor m },
                       { itemId := itemIdStr m2, hold := holdFor m2 }]) := by
  have h1 := handleMessage_accept cfg n1 s0 m hty hch hfresh hhand
  constructor
  · have hdup : (handleMessage cfg n1 s0 m).state.recent.contains
        (dedupeKey n2 m) = true := by
      rw [h1, hsame]; simp
    have h2 := handleMessage_dup cfg n2 _ m hty hch hdup
    rw [h2, h1]
  · have hne : dedupeKey n3 m2 ≠ dedupeKey n1 m := fun he =>
      hv2 (dedupeKey_viewer_inj n1 n3 m m2 hty2 hitem2 hat2 he)
    have hfr2 : dedupeKey n3 m2 ∉ s0.recent := by simpa using hfresh2
    have hfresh3 : (handleMessage cfg n1 s0 m).state.recent.contains
        (dedupeKey n3 m2) = false := by
      rw [h1]; simp [hne, hfr2]
    have hty2r : m2.type = "redeem" := by rw [hty2, hty]
    have hhand2 : HANDLERS.contains (itemIdStr m2) = true := by
      rw [hitem2]; exact hhand
    have h3 := handleMessage_accept cfg n3 _ m2 hty2r hch2 hfresh3 hhand2
    rw [h3, h1]
    simp

theorem claim_C2_witness :
    ((handleMessage "45264995" 0
        (handleMessage "45264995" 0 ⟨[], []⟩
          { type := "redeem", channelId := some "45264995",
            itemId := some "dramatic_zoom",
            viewer := some { opaqueUserId := some "U1" },
            atTime := some 1000 }).state
        { type := "redeem", channelId := some "45264995",
          itemId := some "dramatic_zoom",
          viewer := some { opaqueUserId := some "U1" },
          atTime := some 1000 }).state.tasks
      = [{ itemId := "dramatic_zoom", hold := 5000 }])
    ∧ ((handleMessage "45264995" 0
        (handleMessage "45264995" 0 ⟨[], []⟩
          { type := "redeem", channelId := some "45264995",
            itemId := some "dramatic_zoom",
            viewer := some { opaqueUserId := some "U1" },
            atTime := some 1000 }).state
        { type := "redeem", channelId := some "45264995",
          itemId := some "dramatic_zoom",
          viewer := some { opaqueUserId := some "U2" },
          atTime := some 1000 }).state.tasks
      = [{ itemId := "dramatic_zoom", hold := 5000 },
         { itemId := "dramatic_zoom", hold := 5000 }]) := by
  have h := claim_C2_dedup_idempotence "45264995" ⟨[], []⟩
    { type := "redeem", channelId := some "45264995",
      itemId := some "dramatic_zoom",
      viewer := some { opaqueUserId := some "U1" },
      atTime := some 1000 }
    { type := "redeem", channelId := some "45264995",
      itemId := some "dramatic_zoom",
      viewer := some { opaqueUserId := some "U2" },
      atTime := some 1000 }
    0 0 0 rfl rfl (by decide) (by decide) rfl rfl rfl rfl rfl
    (by decide) (by decide)
  exact ⟨h.1, h.2⟩

/-- Claim C8: a deduplicated redeem event whose itemId has no registered
handler is logged as a warning and dropped: no task is created and the
execution queue's chain is left unchanged. -/
theorem claim_C8_unknown_item_noop (cfg : String) (n : Nat)
    (s0 : BridgeState) (m : Msg)
    (hty : m.type = "redeem") (hch : m.channelId = some cfg)
    (hfresh : s0.recent.contains (dedupeKey n m) = false)
    (hun : HANDLERS.contains (itemIdStr m) = false) :
    (handleMessage cfg n s0 m).state.tasks = s0.tasks
    ∧ LogEntry.noHandler (itemIdStr m) ∈ (handleMessage cfg n s0 m).logs := by
  have h := handleMessage_noHandler cfg n s0 m hty hch hfresh hun
  rw [h]
  exact ⟨rfl, by simp⟩

theorem claim_C8_witness :
    (handleMessage "45264995" 0 ⟨[], []⟩
        { type := "redeem", channelId := some "45264995",
          itemId := some "does_not_exist",
          viewer := some { opaqueUserId := some "U1" },
          atTime := some 1000 }).state.tasks = []
    ∧ LogEntry.noHandler "does_not_exist"
        ∈ (handleMessage "45264995" 0 ⟨[], []⟩
            { type := "redeem", channelId := some "45264995",
              itemId := some "does_not_exist",
              viewer := some { opaqueUserId := some "U1" },
              atTime := some 1000 }).logs := by
  have h := claim_C8_unknown_item_noop "45264995" 0 ⟨[], []⟩
    { type := "redeem", channelId := some "45264995",
      itemId := some "does_not_exist",
      viewer := some { opaqueUserId := some "U1" },
      atTime := some 1000 }
    rfl rfl (by decide) (by decide)
  exact ⟨h.1, h.2⟩

/-- Claim C10 (implicit): the dedup key is recorded before the effect
registry is consulted, so an accepted redeem with an unknown itemId still
consumes its dedup slot, and a second identical event within the same
bucket window is dropped with no registry lookup and no logging. -/
theorem claim_C10_dedup_before_registry (cfg : String) (n1 n2 : Nat)
    (s0 : BridgeState) (m : Msg)
    (hty : m.type = "redeem") (hch : m.channelId = some cfg)
    (hfresh : s0.recent.contains (dedupeKey n1 m) = false)
    (hun : HANDLERS.contains (itemIdStr m) = false)
    (hsame : dedupeKey n2 m = dedupeKey n1 m) :
    (handleMessage cfg n1 s0 m).state.recent.contains (dedupeKey n1 m) = true
    ∧ handleMessage cfg n2 (handleMessage cfg n1 s0 m).state m
        = { state := (handleMessage cfg n1 s0 m).state, logs := [],
            registryConsulted := false } := by
  have h1 := handleMessage_noHandler cfg n1 s0 m hty hch hfresh hun
  have hdup : (handleMessage cfg n1 s0 m).state.recent.contains
      (dedupeKey n2 m) = true := by
    rw [h1, hsame]; simp
  refine ⟨?_, handleMessage_dup cfg n2 _ m hty hch hdup⟩
  rw [h1]; simp

theorem claim_C10_witness :
    (handleMessage "45264995" 0 ⟨[], []⟩
        { type := "redeem", channelId := some "45264995",
          itemId := some "does_not_exist",
          viewer := some { opaqueUserId := some "U1" },
          atTime := some 1000 }).state.recent.contains
      (dedupeKey 0 { type := "redeem", channelId := some "45264995",
                     itemId := some "does_not_exist",
                     viewer := some { opaqueUserId := some "U1" },
                     atTime := some 1000 }) = true
    ∧ (handleMessage "45264995" 0
        (handleMessage "45264995" 0 ⟨[], []⟩
          { type := "redeem", channelId := some "45264995",
            itemId := some "does_not_exist",
            viewer := some { opaqueUserId := some "U1" },
            atTime := some 1000 }).state
        { type := "redeem", channelId := some "45264995",
          itemId := some "does_not_exist",
          viewer := some { opaqueUserId := some "U1" },
          atTime := some 1000 }).registryConsulted = false := by
  have h := claim_C10_dedup_before_registry "45264995" 0 0 ⟨[], []⟩
    { type := "redeem", channelId := some "45264995",
      itemId := some "does_not_exist",
      viewer := some { opaqueUserId := some "U1" },
      atTime := some 1000 }
    rfl rfl (by decide) (by decide) rfl
  exact ⟨h.1, by rw [h.2]⟩

end Bridge

namespace Ebs

/-- The guarded send loop delivers exactly to the open connections whose
send succeeds, each receiving the same data. -/
theorem sendLoop_eq (data : String) (conns : List Conn) :
    sendLoop data conns
      = (conns.filter (fun c => c.readyStateOpen && c.sendOk)).map
          (fun c => (c.id, data)) := by
  induction conns with
  | nil => rfl
  | cons c rest ih =>
    cases hopen : c.readyStateOpen <;> cases hsend : c.sendOk <;>
      simp [sendLoop, wsSend, hopen, hsend, ih]

/-- Claim C5: `publish(channelId, event)` serializes the event once and
sends it to every open connection of that channel whose transport
accepts it, skipping non-open connections silently; a send failure on
one connection is swallowed so every other open connection is still
delivered to, the call never raises (always `.ok`), and nothing is
delivered to a connection registered only under another channel. -/
theorem claim_C5_fanout {α : Type} (serialize : α → String) (hub : Hub)
    (cid : String) (payload : α) :
    broadcastToChannel serialize hub cid payload
      = .ok ((((hub.lookup cid).getD []).filter
            (fun c => c.readyStateOpen && c.sendOk)).map
            (fun c => (c.id, serialize payload)))
    ∧ (∀ c2 : Conn, c2.id ∉ ((hub.lookup cid).getD []).map Conn.id →
        (c2.id, serialize payload) ∉ (((hub.lookup cid).getD []).filter
            (fun c => c.readyStateOpen && c.sendOk)).map
            (fun c => (c.id, serialize payload))) := by
  constructor
  · cases hl : hub.lookup cid with
    | none => simp [broadcastToChannel, hl]
    | some conns => simp [broadcastToChannel, hl, sendLoop_eq]
  · intro c2 hno hmem
    obtain ⟨c, hcf, heq⟩ := List.mem_map.mp hmem
    have hc : c ∈ (hub.lookup cid).getD [] := (List.mem_filter.mp hcf).1
    apply hno
    have hid : c.id = c2.id := congrArg Prod.fst heq
    rw [← hid]
    exact List.mem_map_of_mem Conn.id hc

theorem claim_C5_witness :
    broadcastToChannel (fun s => s)
        [("X", [⟨1, true, true⟩, ⟨2, true, false⟩, ⟨3, true, true⟩]),
         ("Y", [⟨4, true, true⟩])] "X" "evt"
      = .ok [(1, "evt"), (3, "evt")]
    ∧ ((4 : Nat), "evt")
        ∉ (((([("X", [⟨1, true, true⟩, ⟨2, true, false⟩, ⟨3, true, true⟩]),
               ("Y", [⟨4, true, true⟩])] : Hub).lookup "X").getD []).filter
            (fun c => c.readyStateOpen && c.sendOk)).map
            (fun c => (c.id, "evt")) := by
  have h := claim_C5_fanout (fun s => s)
    [("X", [⟨1, true, true⟩, ⟨2, true, false⟩, ⟨3, true, true⟩]),
     ("Y", [⟨4, true, true⟩])] "X" "evt"
  refine ⟨?_, h.2 ⟨4, true, true⟩ (by decide)⟩
  rw [h.1]; exact rfl

/-- Claim C6: for every redeem request, either the viewer has no
inventory entry for the item and the request returns the error with both
stores unmodified, or the latest entry is deleted and the redemption
record inserted by one atomic store update (both changes appear in the
single resulting store). -/
theorem claim_C6_redeem_atomic (st : ChannelStore) (itemId itemName : String)
    (target text : Option String) :
    (findLatestEntry st.inventory itemId = none →
        (redeemRoute st itemId itemName target text).1 = st
        ∧ (redeemRoute st itemId itemName target text).2
            = some "No such item in inventory")
    ∧ (∀ e, findLatestEntry st.inventory itemId = some e →
        (redeemRoute st itemId itemName target text).1.inventory
            = st.inventory.filter (fun x => x.docId != e.docId)
        ∧ (redeemRoute st itemId itemName target text).1.redemptions
            = st.redemptions ++ [{ itemId := itemId, itemName := itemName,
                                   target := target, text := text }]
        ∧ (redeemRoute st itemId itemName target text).2 = none) := by
  constructor
  · intro h; simp [redeemRoute, h]
  · intro e he; simp [redeemRoute, he]

theorem claim_C6_witness :
    ((redeemRoute ⟨[], []⟩ "dramatic_zoom" "Dramatic Zoom" none none).1
        = ⟨[], []⟩)
    ∧ ((redeemRoute ⟨[⟨1, "dramatic_zoom", 10⟩], []⟩ "dramatic_zoom"
          "Dramatic Zoom" none none).1.inventory = []) := by
  have h1 := (claim_C6_redeem_atomic ⟨[], []⟩ "dramatic_zoom"
    "Dramatic Zoom" none none).1 (by decide)
  have h2 := (claim_C6_redeem_atomic ⟨[⟨1, "dramatic_zoom", 10⟩], []⟩
    "dramatic_zoom" "Dramatic Zoom" none none).2 ⟨1, "dramatic_zoom", 10⟩
    (by decide)
  exact ⟨h1.1, h2.1.trans (by decide)⟩

/-- Claim C9: an upgrade request to the subscription endpoint whose query
lacks a non-empty `channel_id` is destroyed immediately and no
subscription is registered (the hub is returned unchanged). -/
theorem claim_C9_missing_channel (hub : Hub) (req : UpgradeReq) (c : Conn)
    (h : req.channelParam = none ∨ req.channelParam = some "") :
    handleUpgrade hub req c = (hub, .destroyed) := by
  unfold handleUpgrade
  rcases h with h | h <;> rw [h] <;> split <;> rfl

theorem claim_C9_witness :
    handleUpgrade [] { pathname := "/bridge", channelParam := none }
        ⟨0, true, true⟩
      = ([], .destroyed) :=
  claim_C9_missing_channel [] { pathname := "/bridge", channelParam := none }
    ⟨0, true, true⟩ (Or.inl rfl)

end Ebs

namespace Bridge

/-- Claim C7: on disconnect a retry is scheduled with the fixed 1500 ms
backoff exactly when the gating flag is up; a firing retry attempts no
connection when the flag has flipped to false (and opens none); no step
ever attempts a connection unless the flag is true at that moment; and
the retry does connect when the flag is still true. -/
theorem claim_C7_reconnect_gated (hasEbs : Bool) (s : ClientState) :
    ((clientStep hasEbs s .wsClose).scheduledRetryMs
        = if s.wantWs then some RETRY_MS else none)
    ∧ (s.wantWs = false →
        (clientStep hasEbs s .retryTimer).connectAttempt = false
        ∧ (clientStep hasEbs s .retryTimer).state.wsConn = s.wsConn)
    ∧ (∀ e, (clientStep hasEbs s e).connectAttempt = true →
        (clientStep hasEbs s e).state.wantWs = true)
    ∧ (s.timerPending = true → s.wantWs = true → s.wsConn = false →
        hasEbs = true →
        (clientStep hasEbs s .retryTimer).connectAttempt = true) := by
  obtain ⟨w, cn, tp⟩ := s
  cases w <;> cases cn <;> cases tp <;> cases hasEbs <;>
    refine ⟨by decide, by decide, fun e => ?_, by decide⟩ <;>
    cases e <;>
    first
      | decide
      | (rename_i b; cases b <;> decide)

theorem claim_C7_witness :
    (clientStep true
        { wantWs := false, wsConn := false, timerPending := true }
        .retryTimer).connectAttempt = false :=
  ((claim_C7_reconnect_gated true
      { wantWs := false, wsConn := false, timerPending := true }).2.1
    rfl).1

end Bridge
